import Mathlib

/-!
Shallow embedding of `city-screensaver/src/main.rs`: the scene data model,
the procedural generators (`create_buildings`, `create_stars_with_count`,
`spawn_vehicle`) and the per-tick updaters (`update_windows`,
`update_vehicles`, `update_stars`, `update_raindrops`, `update_snowflakes`,
`update_clouds`), together with theorems settling the frozen claims.

Modelling conventions:
* `u16` values are `ℕ`; arithmetic that can overflow or underflow in the
  Rust source is modelled as checked arithmetic returning `Option`
  (Rust integer overflow is a program error, trapped in debug builds).
* The `u16 as i16` / `i16 as u16` reinterpreting casts of the snowflake
  drift are modelled value-exactly on `ℤ` with explicit `% 65536`.
* `f32` positions and speeds (vehicles, clouds) are modelled as `ℚ`,
  the exact-arithmetic idealisation of the source's floating point.
* The thread RNG is an infinite stream of naturals `ℕ → ℕ`; every random
  draw of the source consumes exactly one stream element, and
  `random_range` on an empty range fails (it panics in Rust), hence
  returns `none`.
* Rust `str::len()` (UTF-8 byte length) is `String.utf8ByteSize`.
-/

namespace CityScreensaver

/-- The random source: an infinite stream of naturals, one per draw. -/
def RNG : Type := ℕ → ℕ

/-- Drop the first element of the random stream. -/
def rngTail (g : RNG) : RNG := fun n => g (n + 1)

/-- Model of `rng.random_bool(p)`: consumes one draw, returns a boolean.
The probability is irrelevant to the claims; both outcomes are reachable. -/
def randomBool (g : RNG) : Bool × RNG := (g 0 % 2 == 0, rngTail g)

/-- Model of `rng.random_range(lo..hi)` on integer ranges whose bounds are
runtime values: panics (returns `none`) on an empty range, otherwise yields
a value in `[lo, hi)`. -/
def randomRange (lo hi : ℕ) (g : RNG) : Option (ℕ × RNG) :=
  if lo < hi then some (lo + g 0 % (hi - lo), rngTail g) else none

/-- Model of `rng.random_range(0..n)` for a constant nonempty range `n > 0`
(palette indexing): total, yields a value `< n`. -/
def randBelow (n : ℕ) (g : RNG) : ℕ × RNG := (g 0 % n, rngTail g)

/-- Checked `u16` addition: the Rust `+=` on `u16` is an arithmetic error
(debug panic) when the mathematical sum exceeds `65535`. -/
def checkedAddU16 (a b : ℕ) : Option ℕ :=
  if a + b ≤ 65535 then some (a + b) else none

/-- Checked `u16` subtraction: underflow is an arithmetic error. -/
def checkedSubU16 (a b : ℕ) : Option ℕ :=
  if b ≤ a then some (a - b) else none

/-- The reinterpreting cast `x as i16` of a `u16` value. -/
def u16ToI16 (x : ℕ) : ℤ :=
  if x % 65536 < 32768 then (x % 65536 : ℤ) else (x % 65536 : ℤ) - 65536

/-- Checked `i16` addition: overflow outside `[-32768, 32767]` is an
arithmetic error. -/
def checkedAddI16 (a b : ℤ) : Option ℤ :=
  if -32768 ≤ a + b ∧ a + b ≤ 32767 then some (a + b) else none

/-- The reinterpreting cast `s as u16` of an `i16` value. -/
def i16ToU16 (s : ℤ) : ℕ := (s % 65536).toNat

/-- Terminal colors used by the scene (`crossterm::style::Color`). -/
inductive Color : Type
  | rgb (r g b : ℕ)
  | yellow
  | green
  | cyan
  | magenta
  | red
  | blue
  | white
deriving DecidableEq

/-- A star in the night sky (`struct Star`). -/
structure Star : Type where
  x : ℕ
  y : ℕ
  char : Char
deriving DecidableEq

/-- A raindrop falling down the screen (`struct RainDrop`). -/
structure RainDrop : Type where
  x : ℕ
  y : ℕ
  speed : ℕ
deriving DecidableEq

/-- A snowflake falling with horizontal drift (`struct Snowflake`);
`speed_x` is the `i8` drift, a signed value. -/
structure Snowflake : Type where
  x : ℕ
  y : ℕ
  speed_y : ℕ
  speed_x : ℤ
  char : Char
deriving DecidableEq

/-- A cloud moving across the sky (`struct Cloud`). -/
structure Cloud : Type where
  x : ℚ
  y : ℕ
  shape : String
  speed : ℚ
deriving DecidableEq

/-- A window in a building that can be on or off (`struct Window`);
the Rust field is named `on`, a Lean keyword, hence `is_on` here. -/
structure Window : Type where
  is_on : Bool
deriving DecidableEq

/-- A building with windows and optional antenna (`struct Building`). -/
structure Building : Type where
  x : ℕ
  width : ℕ
  height : ℕ
  color : Color
  windows : List (List Window)
  has_antenna : Bool
  antenna_char : Char
deriving DecidableEq

/-- A vehicle moving along the road (`struct Vehicle`). -/
structure Vehicle : Type where
  x : ℚ
  y : ℕ
  style : String
  color : Color
  speed : ℚ
deriving DecidableEq

/-- `STAR_CHARS: [char; 4] = ['.', '*', '+', '\'']`. -/
def STAR_CHARS : List Char := ['.', '*', '+', Char.ofNat 39]

/-- `SNOWFLAKE_CHARS: [char; 3]`. -/
def SNOWFLAKE_CHARS : List Char := ['*', '.', 'o']

/-- `CLOUD_SHAPES: [&str; 3]`. -/
def CLOUD_SHAPES : List String := ["_.-^-._", " ~~~", "(-.-)"]

/-- `ANTENNA_CHARS: [char; 3]`. -/
def ANTENNA_CHARS : List Char := ['|', 'Y', 'i']

/-- `BUILDING_COLORS: [Color; 4]`. -/
def BUILDING_COLORS : List Color :=
  [Color.rgb 60 60 60, Color.rgb 70 70 70, Color.rgb 80 80 80, Color.rgb 90 90 90]

/-- `VEHICLE_STYLES: [(&str, Color, f32); 9]`, speeds as exact rationals. -/
def VEHICLE_STYLES : List (String × Color × ℚ) :=
  [("─=≡(°o°)", Color.yellow, 5),
   ("[\\__\\_]", Color.green, -3),
   ("o-o-o", Color.cyan, 4),
   ("[##-##]", Color.magenta, -(5/2)),
   ("<(o.o)>", Color.red, 2),
   ("🚚", Color.blue, -2),
   ("🚓", Color.white, 7/2),
   ("🚑", Color.red, -4),
   ("🚌", Color.green, 14/5)]

/-- Model of `L[rng.random_range(0..L.len())]` for a fixed nonempty
palette `l`: one draw, uniform index below `l.length`. -/
def pickUniform {α : Type} (l : List α) (hl : 0 < l.length) (g : RNG) : α × RNG :=
  (l.get ⟨g 0 % l.length, Nat.mod_lt _ hl⟩, rngTail g)

/-! ## Updaters (`update_*` functions of the source) -/

/-- One window of `update_windows`: toggled with a fixed probability. -/
def updateWindowCell (w : Window) (g : RNG) : Window × RNG :=
  let (b, g1) := randomBool g
  (if b then { is_on := !w.is_on } else w, g1)

/-- One row of a building's window grid under `update_windows`. -/
def updateWindowRow : List Window → RNG → List Window × RNG
  | [], g => ([], g)
  | w :: ws, g =>
    let (w1, g1) := updateWindowCell w g
    let (rest, g2) := updateWindowRow ws g1
    (w1 :: rest, g2)

/-- A whole window grid under `update_windows`. -/
def updateWindowGrid : List (List Window) → RNG → List (List Window) × RNG
  | [], g => ([], g)
  | r :: rs, g =>
    let (r1, g1) := updateWindowRow r g
    let (rest, g2) := updateWindowGrid rs g1
    (r1 :: rest, g2)

/-- `update_windows(buildings, rng)`: every window of every building may
toggle, each consuming one draw. -/
def update_windows : List Building → RNG → List Building × RNG
  | [], g => ([], g)
  | b :: bs, g =>
    let (ws, g1) := updateWindowGrid b.windows g
    let (rest, g2) := update_windows bs g1
    ({ b with windows := ws } :: rest, g2)

/-- `vehicles[i].style.len()`: the UTF-8 byte length of the glyph string,
exactly Rust's `str::len()`. -/
def vehicleWidth (v : Vehicle) : ℕ := v.style.utf8ByteSize

/-- The position advance of `update_vehicles`: `x += speed * 0.1`. -/
def stepVehicle (v : Vehicle) : Vehicle := { v with x := v.x + v.speed * (1 / 10) }

/-- The removal test of `update_vehicles`:
`(speed > 0 && x > term_width) || (speed < 0 && x < -vehicle_width)`. -/
def vehicleGone (w : ℕ) (v : Vehicle) : Prop :=
  (0 < v.speed ∧ (w : ℚ) < v.x) ∨ (v.speed < 0 ∧ v.x < -(vehicleWidth v : ℚ))

instance (w : ℕ) (v : Vehicle) : Decidable (vehicleGone w v) := by
  unfold vehicleGone; infer_instance

/-- `update_vehicles(vehicles, term_width)`: each vehicle is advanced, then
removed in place exactly when the removal test holds for its new position;
the index-juggling loop of the source visits each original element once, in
order, so it is this recursion. -/
def update_vehicles (w : ℕ) : List Vehicle → List Vehicle
  | [] => []
  | v :: vs =>
    let v1 := stepVehicle v
    if vehicleGone w v1 then update_vehicles w vs else v1 :: update_vehicles w vs

/-- One star of `update_stars`: with a fixed probability the glyph is
re-drawn from `STAR_CHARS`. -/
def updateStar (s : Star) (g : RNG) : Star × RNG :=
  let (b, g1) := randomBool g
  if b then
    let (c, g2) := pickUniform STAR_CHARS (by decide) g1
    ({ s with char := c }, g2)
  else (s, g1)

/-- `update_stars(stars, rng)`. -/
def update_stars : List Star → RNG → List Star × RNG
  | [], g => ([], g)
  | s :: ss, g =>
    let (s1, g1) := updateStar s g
    let (rest, g2) := update_stars ss g1
    (s1 :: rest, g2)

/-- One drop of `update_raindrops`: `y += speed` (checked `u16` add), and
on `y >= term_height` the drop restarts at `y = 0` with a fresh column. -/
def updateRainDrop (w h : ℕ) (d : RainDrop) (g : RNG) : Option (RainDrop × RNG) := do
  let y1 ← checkedAddU16 d.y d.speed
  if h ≤ y1 then
    let (x1, g1) ← randomRange 0 w g
    some ({ d with x := x1, y := 0 }, g1)
  else
    some ({ d with y := y1 }, g)

/-- `update_raindrops(raindrops, term_width, term_height, rng)`. -/
def update_raindrops (w h : ℕ) : List RainDrop → RNG → Option (List RainDrop × RNG)
  | [], g => some ([], g)
  | d :: ds, g => do
    let (d1, g1) ← updateRainDrop w h d g
    let (rest, g2) ← update_raindrops w h ds g1
    some (d1 :: rest, g2)

/-- One flake of `update_snowflakes`: the fall step and bottom-edge reset of
the raindrop, then the horizontal drift
`flake.x = (flake.x as i16 + flake.speed_x as i16) as u16` with its two
edge adjustments. -/
def updateSnowflake (w h : ℕ) (f : Snowflake) (g : RNG) : Option (Snowflake × RNG) := do
  let y1 ← checkedAddU16 f.y f.speed_y
  let (x1, y2, g1) ←
    if h ≤ y1 then do
      let (xr, gr) ← randomRange 0 w g
      some (xr, 0, gr)
    else some (f.x, y1, g)
  let s ← checkedAddI16 (u16ToI16 x1) f.speed_x
  let x2 := i16ToU16 s
  let x3 := if w ≤ x2 then 0 else if x2 = 0 ∧ f.speed_x < 0 then w - 1 else x2
  some ({ f with x := x3, y := y2 }, g1)

/-- `update_snowflakes(snowflakes, term_width, term_height, rng)`. -/
def update_snowflakes (w h : ℕ) : List Snowflake → RNG → Option (List Snowflake × RNG)
  | [], g => some ([], g)
  | f :: fs, g => do
    let (f1, g1) ← updateSnowflake w h f g
    let (rest, g2) ← update_snowflakes w h fs g1
    some (f1 :: rest, g2)

/-- One cloud of `update_clouds`: `x += speed * 0.1`, and past the right
edge the cloud wraps to `x = -(shape.len())`. -/
def updateCloud (w : ℕ) (c : Cloud) : Cloud :=
  let x1 := c.x + c.speed * (1 / 10)
  if (w : ℚ) < x1 then { c with x := -(c.shape.utf8ByteSize : ℚ) } else { c with x := x1 }

/-- `update_clouds(clouds, term_width)`. -/
def update_clouds (w : ℕ) (cs : List Cloud) : List Cloud := cs.map (updateCloud w)

/-! ## Generators (`create_*` and `spawn_vehicle`) -/

/-- `create_vehicles(term_height)`: always the empty collection. -/
def create_vehicles (_h : ℕ) : List Vehicle := []

/-- `spawn_vehicle(term_width, term_height, rng)`: `road_y = term_height - 3`
(checked `u16` subtraction), a palette style, one of the two lanes `road_y`
and `road_y - 1`, and the starting edge picked by the speed's sign. -/
def spawn_vehicle (w h : ℕ) (g : RNG) : Option (Vehicle × RNG) := do
  let road_y ← checkedSubU16 h 3
  let (sty, g1) := pickUniform VEHICLE_STYLES (by decide) g
  let (b, g2) := randomBool g1
  let y ← if b then some road_y else checkedSubU16 road_y 1
  let x : ℚ := if 0 < sty.2.2 then 0 else (w : ℚ)
  some ({ x := x, y := y, style := sty.1, color := sty.2.1, speed := sty.2.2 }, g2)

/-- `create_stars_with_count(term_width, term_height, rng, count)`: `count`
stars, each with `x ← random_range(0..term_width)`,
`y ← random_range(0..term_height / 2)` and a `STAR_CHARS` glyph. -/
def create_stars_with_count (w h : ℕ) : RNG → ℕ → Option (List Star × RNG)
  | g, 0 => some ([], g)
  | g, n + 1 => do
    let (x1, g1) ← randomRange 0 w g
    let (y1, g2) ← randomRange 0 (h / 2) g1
    let (c1, g3) := pickUniform STAR_CHARS (by decide) g2
    let (rest, g4) ← create_stars_with_count w h g3 n
    some ({ x := x1, y := y1, char := c1 } :: rest, g4)

/-- `create_stars`: the 50-star default. -/
def create_stars (w h : ℕ) (g : RNG) : Option (List Star × RNG) :=
  create_stars_with_count w h g 50

/-- One row `y` of a building's window grid in `create_buildings`: for
`wx in 1..width-1`, a window exists only at odd `y` and odd `wx`, lit by
one draw. -/
def windowRow (y : ℕ) : List ℕ → RNG → List Window × RNG
  | [], g => ([], g)
  | wx :: rest, g =>
    if y % 2 ≠ 0 ∧ wx % 2 ≠ 0 then
      let (b, g1) := randomBool g
      let (tl, g2) := windowRow y rest g1
      ({ is_on := b } :: tl, g2)
    else windowRow y rest g

/-- The window grid of `create_buildings`: one row per `y in 1..height-1`
(a row may be empty at even `y`). -/
def windowGrid (width : ℕ) : List ℕ → RNG → List (List Window) × RNG
  | [], g => ([], g)
  | y :: ys, g =>
    let (row, g1) := windowRow y (List.range' 1 (width - 1 - 1)) g
    let (rest, g2) := windowGrid width ys g1
    (row :: rest, g2)

/-- The `while x < term_width` loop of `create_buildings`, from position
`x`.  The draws `width ← random_range(5..15)` and `gap ← random_range(1..5)`
are statically nonempty, so they are inlined as `5 + _ % 10` and
`1 + _ % 4` (exactly `randomRange 5 15` and `randomRange 1 5`); the height
draw `random_range(5..(term_height - 5))` keeps its fallible form: checked
`u16` subtraction, then a range that panics when empty.  The accumulator
step `x += width + gap` is a `u16` addition that can overflow (the inner
`width + gap ≤ 18` cannot), so it is checked: the guard
`x + (width + gap) ≤ 65535` is `checkedAddU16 x (width + gap)` in guard
form (inlined so the recursion argument stays explicit), and its failure
is the arithmetic error `none`. -/
def createBuildingsFrom (w h : ℕ) (x : ℕ) (g : RNG) : Option (List Building × RNG) :=
  if hx : x < w then
    let width := 5 + g 0 % 10
    let g1 := rngTail g
    match checkedSubU16 h 5 with
    | none => none
    | some hb =>
      match randomRange 5 hb g1 with
      | none => none
      | some (height, g2) =>
        let (color, g3) := pickUniform BUILDING_COLORS (by decide) g2
        let (ws, g4) := windowGrid width (List.range' 1 (height - 1 - 1)) g3
        let (hasAnt, g5) := randomBool g4
        let (ant, g6) :=
          if hasAnt then pickUniform ANTENNA_CHARS (by decide) g5 else (' ', g5)
        let gap := 1 + g6 0 % 4
        let g7 := rngTail g6
        if x + (width + gap) ≤ 65535 then
          match createBuildingsFrom w h (x + (width + gap)) g7 with
          | none => none
          | some (rest, g8) =>
            some ({ x := x, width := width, height := height, color := color,
                    windows := ws, has_antenna := hasAnt, antenna_char := ant } :: rest, g8)
        else none
  else some ([], g)
termination_by w - x
decreasing_by simp_wf; omega

/-- `create_buildings(term_width, term_height, rng)`: the tiling loop
started at `x = 0`. -/
def create_buildings (w h : ℕ) (g : RNG) : Option (List Building × RNG) :=
  createBuildingsFrom w h 0 g

/-- An arbitrary concrete random stream, used for concrete instances. -/
def rngZero : RNG := fun _ => 0

/-- A concrete cloud inside a 10-column screen: `x = 9.99`, one of the
fixed shapes, speed `1` (inside the generated range `[0.5, 1.5)`). -/
def cexCloud : Cloud := { x := 999 / 100, y := 0, shape := "_.-^-._", speed := 1 }

/-- A concrete snowflake on the left edge of a 10-column screen, drifting
left (`speed_x = -1`, inside the generated range `[-1, 1]`). -/
def cexFlake : Snowflake := { x := 0, y := 0, speed_y := 1, speed_x := -1, char := Char.ofNat 42 }

/-- A concrete raindrop on the bottom row of a 3-row screen whose legal
`u16` speed makes `y += speed` overflow. -/
def cexDrop : RainDrop := { x := 0, y := 2, speed := 65535 }

/-! ## Basic facts about the random primitives -/

lemma randomRange_pos (lo hi : ℕ) (g : RNG) (hlh : lo < hi) :
    randomRange lo hi g = some (lo + g 0 % (hi - lo), rngTail g) := by
  unfold randomRange
  rw [if_pos hlh]

lemma randomRange_lt (lo hi : ℕ) (g : RNG) (hlh : lo < hi) :
    lo + g 0 % (hi - lo) < hi := by
  have := Nat.mod_lt (g 0) (y := hi - lo) (by omega)
  omega

lemma pickUniform_mem {α : Type} (l : List α) (hl : 0 < l.length) (g : RNG) :
    (pickUniform l hl g).1 ∈ l := by
  unfold pickUniform
  exact List.get_mem _ _ _

/-! ## Theorems about the claims -/

/-- Claim C9: every per-kind updater maps the empty collection to the
empty collection (with the random stream untouched where it is threaded). -/
theorem updaters_fix_empty_collections (w h : ℕ) (g : RNG) :
    update_windows [] g = ([], g) ∧
    update_vehicles w [] = [] ∧
    update_stars [] g = ([], g) ∧
    update_raindrops w h [] g = some ([], g) ∧
    update_snowflakes w h [] g = some ([], g) ∧
    update_clouds w [] = [] :=
  ⟨rfl, rfl, rfl, rfl, rfl, rfl⟩

lemma update_stars_cons (s : Star) (ss : List Star) (g : RNG) :
    update_stars (s :: ss) g =
      ((updateStar s g).1 :: (update_stars ss (updateStar s g).2).1,
        (update_stars ss (updateStar s g).2).2) := rfl

lemma updateStar_spec (s : Star) (g : RNG) :
    (updateStar s g).1.x = s.x ∧ (updateStar s g).1.y = s.y ∧
      ((updateStar s g).1.char = s.char ∨ (updateStar s g).1.char ∈ STAR_CHARS) := by
  unfold updateStar
  by_cases hb : (randomBool g).1
  · simp only [hb, if_true]
    refine ⟨?_, ?_, Or.inr (pickUniform_mem _ _ _)⟩ <;> trivial
  · simp only [hb, if_false]
    refine ⟨?_, ?_, Or.inl ?_⟩ <;> trivial

/-- Claim C8: `update_stars` never moves a star; only the glyph may change,
and a changed glyph is again one of `STAR_CHARS`. -/
theorem update_stars_fixes_positions (g : RNG) (ss : List Star) :
    List.Forall₂
      (fun s s1 => s1.x = s.x ∧ s1.y = s.y ∧ (s1.char = s.char ∨ s1.char ∈ STAR_CHARS))
      ss (update_stars ss g).1 := by
  induction ss generalizing g with
  | nil => exact List.Forall₂.nil
  | cons s ss ih =>
    rw [update_stars_cons]
    exact List.Forall₂.cons (updateStar_spec s g) (ih _)

lemma update_vehicles_cons (w : ℕ) (v : Vehicle) (vs : List Vehicle) :
    update_vehicles w (v :: vs) =
      if vehicleGone w (stepVehicle v) then update_vehicles w vs
      else stepVehicle v :: update_vehicles w vs := rfl

/-- Claim C1: `update_vehicles` advances every vehicle's `x` by
`speed * 0.1` and removes a vehicle exactly when the advanced position is
past the opposite edge by its own glyph width — `x > term_width` for a
rightbound vehicle (its leading cell `x + len` is then more than `len`
beyond the right edge) and `x < -len` for a leftbound one (its leading
cell `x` is then more than `len` beyond the left edge); either condition
puts every cell of the glyph `[x, x + len)` outside `[0, term_width)`, so
the vehicle has fully exited the screen when it disappears. -/
theorem update_vehicles_advances_and_removes (w : ℕ) (vs : List Vehicle) :
    update_vehicles w vs =
      (vs.map stepVehicle).filter (fun v => !decide (vehicleGone w v)) ∧
    (∀ v : Vehicle, (stepVehicle v).x = v.x + v.speed * (1 / 10)) ∧
    (∀ v : Vehicle, vehicleGone w v →
      ((w : ℚ) ≤ v.x ∨ v.x + (vehicleWidth v : ℚ) ≤ 0)) := by
  refine ⟨?_, fun v => rfl, ?_⟩
  · induction vs with
    | nil => rfl
    | cons v vs ih =>
      rw [update_vehicles_cons, List.map_cons, List.filter_cons]
      by_cases hg : vehicleGone w (stepVehicle v)
      · simp [hg, ih]
      · simp [hg, ih]
  · rintro v (⟨-, hx⟩ | ⟨-, hx⟩)
    · exact Or.inl (le_of_lt hx)
    · refine Or.inr ?_
      have := neg_lt_neg hx
      linarith

lemma checkedAddU16_pos (a b : ℕ) (hov : a + b ≤ 65535) :
    checkedAddU16 a b = some (a + b) := by
  unfold checkedAddU16; rw [if_pos hov]

lemma checkedAddI16_pos (a b : ℤ) (hov : -32768 ≤ a + b ∧ a + b ≤ 32767) :
    checkedAddI16 a b = some (a + b) := by
  unfold checkedAddI16; rw [if_pos hov]

lemma updateRainDrop_bounds (w h : ℕ) (g : RNG) (d : RainDrop) (p : RainDrop × RNG)
    (hx : d.x < w) (hy : d.y < h)
    (hp : updateRainDrop w h d g = some p) : p.1.x < w ∧ p.1.y < h := by
  have hw : 0 < w := by omega
  have hh : 0 < h := by omega
  unfold updateRainDrop at hp
  cases hadd : checkedAddU16 d.y d.speed with
  | none => rw [hadd] at hp; simp at hp
  | some y1 =>
    rw [hadd] at hp
    simp only [Option.bind_eq_bind, Option.some_bind] at hp
    by_cases hre : h ≤ y1
    · rw [if_pos hre, randomRange_pos 0 w g hw] at hp
      simp only [Option.some_bind, Option.some_inj] at hp
      rw [← hp]
      refine ⟨?_, hh⟩
      have := Nat.mod_lt (g 0) (y := w) hw
      simpa using this
    · rw [if_neg hre] at hp
      simp only [Option.some_inj] at hp
      rw [← hp]
      exact ⟨hx, show y1 < h by omega⟩

lemma update_raindrops_cons (w h : ℕ) (d : RainDrop) (ds : List RainDrop) (g : RNG) :
    update_raindrops w h (d :: ds) g =
      (updateRainDrop w h d g).bind fun q =>
        (update_raindrops w h ds q.2).bind fun r => some (q.1 :: r.1, r.2) := rfl

lemma update_raindrops_bounds (w h : ℕ) (ds : List RainDrop) :
    ∀ (g : RNG) (p : List RainDrop × RNG), (∀ d ∈ ds, d.x < w ∧ d.y < h) →
      update_raindrops w h ds g = some p → ∀ d1 ∈ p.1, d1.x < w ∧ d1.y < h := by
  induction ds with
  | nil =>
    intro g p _ hp d1 hd1
    simp only [update_raindrops, Option.some_inj] at hp
    rw [← hp] at hd1
    simp at hd1
  | cons d ds ih =>
    intro g p hds hp d1 hd1
    rw [update_raindrops_cons] at hp
    cases hq : updateRainDrop w h d g with
    | none => rw [hq] at hp; simp at hp
    | some q =>
      rw [hq] at hp
      simp only [Option.some_bind] at hp
      cases hr : update_raindrops w h ds q.2 with
      | none => rw [hr] at hp; simp at hp
      | some r =>
        rw [hr] at hp
        simp only [Option.some_bind, Option.some_inj] at hp
        rw [← hp] at hd1
        rcases List.mem_cons.mp hd1 with h1 | h1
        · rw [h1]
          exact updateRainDrop_bounds w h g d q (hds d (by simp)).1 (hds d (by simp)).2 hq
        · exact ih q.2 r (fun e he => hds e (by simp [he])) hr d1 h1

lemma updateSnowflake_bounds (w h : ℕ) (g : RNG) (f : Snowflake) (p : Snowflake × RNG)
    (hx : f.x < w) (hy : f.y < h)
    (hp : updateSnowflake w h f g = some p) : p.1.x < w ∧ p.1.y < h := by
  have hw : 0 < w := by omega
  have hh : 0 < h := by omega
  unfold updateSnowflake at hp
  cases hadd : checkedAddU16 f.y f.speed_y with
  | none => rw [hadd] at hp; simp at hp
  | some y1 =>
    rw [hadd] at hp
    simp only [Option.bind_eq_bind, Option.some_bind] at hp
    have hfin : ∀ (x1 y2 : ℕ) (g1 : RNG), y2 < h →
        ((checkedAddI16 (u16ToI16 x1) f.speed_x).bind fun s =>
          some ({ f with
                  x := if w ≤ i16ToU16 s then 0
                       else if i16ToU16 s = 0 ∧ f.speed_x < 0 then w - 1 else i16ToU16 s,
                  y := y2 }, g1)) = some p →
        p.1.x < w ∧ p.1.y < h := by
      intro x1 y2 g1 hy2 hbind
      cases hs : checkedAddI16 (u16ToI16 x1) f.speed_x with
      | none => rw [hs] at hbind; simp at hbind
      | some s =>
        rw [hs] at hbind
        simp only [Option.some_bind, Option.some_inj] at hbind
        rw [← hbind]
        refine ⟨?_, hy2⟩
        dsimp only
        by_cases h1 : w ≤ i16ToU16 s
        · rw [if_pos h1]; omega
        · rw [if_neg h1]
          by_cases h2 : i16ToU16 s = 0 ∧ f.speed_x < 0
          · rw [if_pos h2]; omega
          · rw [if_neg h2]; omega
    by_cases hre : h ≤ y1
    · rw [if_pos hre, randomRange_pos 0 w g hw] at hp
      simp only [Option.some_bind] at hp
      exact hfin _ 0 _ hh hp
    · rw [if_neg hre] at hp
      exact hfin f.x y1 g (by omega) hp

lemma update_snowflakes_cons (w h : ℕ) (f : Snowflake) (fs : List Snowflake) (g : RNG) :
    update_snowflakes w h (f :: fs) g =
      (updateSnowflake w h f g).bind fun q =>
        (update_snowflakes w h fs q.2).bind fun r => some (q.1 :: r.1, r.2) := rfl

lemma update_snowflakes_bounds (w h : ℕ) (fs : List Snowflake) :
    ∀ (g : RNG) (p : List Snowflake × RNG), (∀ f ∈ fs, f.x < w ∧ f.y < h) →
      update_snowflakes w h fs g = some p → ∀ f1 ∈ p.1, f1.x < w ∧ f1.y < h := by
  induction fs with
  | nil =>
    intro g p _ hp f1 hf1
    simp only [update_snowflakes, Option.some_inj] at hp
    rw [← hp] at hf1
    simp at hf1
  | cons f fs ih =>
    intro g p hfs hp f1 hf1
    rw [update_snowflakes_cons] at hp
    cases hq : updateSnowflake w h f g with
    | none => rw [hq] at hp; simp at hp
    | some q =>
      rw [hq] at hp
      simp only [Option.some_bind] at hp
      cases hr : update_snowflakes w h fs q.2 with
      | none => rw [hr] at hp; simp at hp
      | some r =>
        rw [hr] at hp
        simp only [Option.some_bind, Option.some_inj] at hp
        rw [← hp] at hf1
        rcases List.mem_cons.mp hf1 with h1 | h1
        · rw [h1]
          exact updateSnowflake_bounds w h g f q (hfs f (by simp)).1 (hfs f (by simp)).2 hq
        · exact ih q.2 r (fun e he => hfs e (by simp [he])) hr f1 h1

lemma u16ToI16_of_lt (x : ℕ) (hx : x < 32768) : u16ToI16 x = (x : ℤ) := by
  unfold u16ToI16
  rw [Nat.mod_eq_of_lt (by omega)]
  rw [if_pos hx]
  omega

lemma i16ToU16_of_nonneg (s : ℤ) (h0 : 0 ≤ s) (hlt : s < 65536) : i16ToU16 s = s.toNat := by
  unfold i16ToU16
  rw [Int.emod_eq_of_lt h0 hlt]

lemma i16ToU16_neg_one : i16ToU16 (-1) = 65535 := by decide

lemma updateSnowflake_drift (w h : ℕ) (g : RNG) (f : Snowflake) (x3 : ℕ)
    (hov : f.y + f.speed_y ≤ 65535) (hlow : f.y + f.speed_y < h)
    (hadd : -32768 ≤ u16ToI16 f.x + f.speed_x ∧ u16ToI16 f.x + f.speed_x ≤ 32767)
    (hx3 : x3 = (if w ≤ i16ToU16 (u16ToI16 f.x + f.speed_x) then 0
                 else if i16ToU16 (u16ToI16 f.x + f.speed_x) = 0 ∧ f.speed_x < 0 then w - 1
                 else i16ToU16 (u16ToI16 f.x + f.speed_x))) :
    updateSnowflake w h f g = some ({ f with x := x3, y := f.y + f.speed_y }, g) := by
  have step : updateSnowflake w h f g =
      (checkedAddI16 (u16ToI16 f.x) f.speed_x).bind fun s =>
        some ({ f with
                x := if w ≤ i16ToU16 s then 0
                     else if i16ToU16 s = 0 ∧ f.speed_x < 0 then w - 1 else i16ToU16 s,
                y := f.y + f.speed_y }, g) := by
    unfold updateSnowflake
    rw [checkedAddU16_pos _ _ hov]
    simp only [Option.bind_eq_bind, Option.some_bind]
    rw [if_neg (by omega)]
  rw [step, checkedAddI16_pos _ _ hadd]
  simp only [Option.some_bind]
  rw [hx3]

lemma update_snowflakes_singleton (w h : ℕ) (f f1 : Snowflake) (g : RNG)
    (hq : updateSnowflake w h f g = some (f1, g)) :
    update_snowflakes w h [f] g = some ([f1], g) := by
  rw [update_snowflakes_cons, hq]
  rfl

/-- Claim C3 counterexample: on a 10-column screen a snowflake at `x = 0`
with leftward drift `speed_x = -1` drifts past the left edge, yet after
`update_snowflakes` its `x` is `0` again (the `u16` cast underflows to
`65535`, which the `x >= term_width` branch clamps to `0`), not
`terminal_width - 1 = 9` as the claim requires. -/
theorem update_snowflakes_left_edge_cex :
    (update_snowflakes 10 10 [cexFlake] rngZero).map (fun p => p.1.map Snowflake.x) =
      some [0] ∧
    cexFlake.x = 0 ∧ cexFlake.speed_x < 0 ∧ (0 : ℕ) ≠ 10 - 1 := by
  decide

/-- Claim C3 as amended: the per-tick drift of `update_snowflakes` wraps at
both edges, but with this boundary behaviour: a flake drifting past the
right edge re-enters at `x = 0`; a flake drifting left re-enters at
`x = terminal_width - 1` when it lands exactly on column `0` (i.e. it left
from `x = 1`), while a flake already at `x = 0` drifting left stays at
`x = 0`; away from the edges the drift moves `x` by `speed_x`.  (Stated for
the generated drift values `speed_x ∈ {-1, 0, 1}` on a screen of width at
most `32767`, below the fall-reset row.) -/
theorem update_snowflakes_drift_wraparound (w h : ℕ) (g : RNG) (f : Snowflake)
    (hw : 1 ≤ w) (hw2 : w ≤ 32767) (hx : f.x < w)
    (hy : f.y + f.speed_y < h) (hh : h ≤ 65536)
    (hsx : f.speed_x = -1 ∨ f.speed_x = 0 ∨ f.speed_x = 1) :
    ∃ f1 : Snowflake, update_snowflakes w h [f] g = some ([f1], g) ∧
      f1.y = f.y + f.speed_y ∧
      (f.speed_x = 0 → f1.x = f.x) ∧
      (f.speed_x = 1 → (f.x + 1 = w → f1.x = 0) ∧ (f.x + 1 < w → f1.x = f.x + 1)) ∧
      (f.speed_x = -1 →
        (f.x = 0 → f1.x = 0) ∧ (f.x = 1 → f1.x = w - 1) ∧ (2 ≤ f.x → f1.x = f.x - 1)) := by
  have hov : f.y + f.speed_y ≤ 65535 := by omega
  have hfx : u16ToI16 f.x = (f.x : ℤ) := u16ToI16_of_lt f.x (by omega)
  rcases hsx with hsx | hsx | hsx
  · -- leftward drift
    by_cases h0 : f.x = 0
    · -- left edge: underflow, clamped back to 0
      have hd : u16ToI16 f.x + f.speed_x = -1 := by rw [hfx, hsx, h0]; ring
      refine ⟨{ f with x := 0, y := f.y + f.speed_y }, ?_, rfl, ?_, ?_, ?_⟩
      · refine update_snowflakes_singleton w h f _ g
          (updateSnowflake_drift w h g f 0 hov hy ⟨by rw [hd]; omega, by rw [hd]; omega⟩ ?_)
        rw [hd, i16ToU16_neg_one, if_pos (by omega)]
      · intro hc; rw [hsx] at hc; omega
      · intro hc; rw [hsx] at hc; omega
      · exact fun _ => ⟨fun _ => rfl, fun h1 => by omega, fun h2 => by omega⟩
    · -- from column ≥ 1: lands on f.x - 1, bumped to w - 1 from column 1
      have hd : u16ToI16 f.x + f.speed_x = ((f.x - 1 : ℕ) : ℤ) := by
        rw [hfx, hsx]; omega
      have hu : i16ToU16 (u16ToI16 f.x + f.speed_x) = f.x - 1 := by
        rw [hd, i16ToU16_of_nonneg _ (by omega) (by omega), Int.toNat_natCast]
      by_cases h1 : f.x = 1
      · -- lands exactly on column 0: bumped to w - 1
        refine ⟨{ f with x := w - 1, y := f.y + f.speed_y }, ?_, rfl, ?_, ?_, ?_⟩
        · refine update_snowflakes_singleton w h f _ g
            (updateSnowflake_drift w h g f _ hov hy
              ⟨by rw [hd]; omega, by rw [hd]; omega⟩ ?_)
          rw [hu, if_neg (by omega),
            if_pos (show f.x - 1 = 0 ∧ f.speed_x < 0 from ⟨by omega, by rw [hsx]; omega⟩)]
        · intro hc; rw [hsx] at hc; omega
        · intro hc; rw [hsx] at hc; omega
        · exact fun _ => ⟨fun hc => by omega, fun _ => rfl, fun h2 => by omega⟩
      · -- interior: moves one column left
        refine ⟨{ f with x := f.x - 1, y := f.y + f.speed_y }, ?_, rfl, ?_, ?_, ?_⟩
        · refine update_snowflakes_singleton w h f _ g
            (updateSnowflake_drift w h g f _ hov hy
              ⟨by rw [hd]; omega, by rw [hd]; omega⟩ ?_)
          rw [hu, if_neg (by omega),
            if_neg (show ¬ (f.x - 1 = 0 ∧ f.speed_x < 0) from fun hc => by omega)]
        · intro hc; rw [hsx] at hc; omega
        · intro hc; rw [hsx] at hc; omega
        · exact fun _ => ⟨fun hc => by omega, fun hc => by omega, fun _ => rfl⟩
  · -- no drift
    have hd : u16ToI16 f.x + f.speed_x = ((f.x : ℕ) : ℤ) := by rw [hfx, hsx]; ring
    have hu : i16ToU16 (u16ToI16 f.x + f.speed_x) = f.x := by
      rw [hd, i16ToU16_of_nonneg _ (by omega) (by omega), Int.toNat_natCast]
    refine ⟨{ f with x := f.x, y := f.y + f.speed_y }, ?_, rfl, fun _ => rfl, ?_, ?_⟩
    · refine update_snowflakes_singleton w h f _ g
        (updateSnowflake_drift w h g f _ hov hy
          ⟨by rw [hd]; omega, by rw [hd]; omega⟩ ?_)
      rw [hu, if_neg (by omega),
        if_neg (show ¬ (f.x = 0 ∧ f.speed_x < 0) from fun hc => by
          rw [hsx] at hc; omega)]
    · intro hc; rw [hsx] at hc; omega
    · intro hc; rw [hsx] at hc; omega
  · -- rightward drift
    have hd : u16ToI16 f.x + f.speed_x = ((f.x + 1 : ℕ) : ℤ) := by
      rw [hfx, hsx]; omega
    have hu : i16ToU16 (u16ToI16 f.x + f.speed_x) = f.x + 1 := by
      rw [hd, i16ToU16_of_nonneg _ (by omega) (by omega), Int.toNat_natCast]
    by_cases h1 : w ≤ f.x + 1
    · -- crosses the right edge: wraps to 0
      refine ⟨{ f with x := 0, y := f.y + f.speed_y }, ?_, rfl, ?_, ?_, ?_⟩
      · refine update_snowflakes_singleton w h f _ g
          (updateSnowflake_drift w h g f _ hov hy
            ⟨by rw [hd]; omega, by rw [hd]; omega⟩ ?_)
        rw [hu, if_pos h1]
      · intro hc; rw [hsx] at hc; omega
      · exact fun _ => ⟨fun _ => rfl, fun hc => by omega⟩
      · intro hc; rw [hsx] at hc; omega
    · -- interior: moves one column right
      refine ⟨{ f with x := f.x + 1, y := f.y + f.speed_y }, ?_, rfl, ?_, ?_, ?_⟩
      · refine update_snowflakes_singleton w h f _ g
          (updateSnowflake_drift w h g f _ hov hy
            ⟨by rw [hd]; omega, by rw [hd]; omega⟩ ?_)
        rw [hu, if_neg h1,
          if_neg (show ¬ (f.x + 1 = 0 ∧ f.speed_x < 0) from fun hc => by omega)]
      · intro hc; rw [hsx] at hc; omega
      · exact fun _ => ⟨fun hc => by omega, fun _ => rfl⟩
      · intro hc; rw [hsx] at hc; omega

/-- Concrete instance of `update_snowflakes_drift_wraparound` at
`w = 10`, `h = 10`, a flake at `x = 1` drifting left. -/
theorem update_snowflakes_drift_wraparound_witness :
    (1 ≤ 10 ∧ 10 ≤ 32767 ∧
       ({ x := 1, y := 0, speed_y := 1, speed_x := -1, char := Char.ofNat 42 } :
         Snowflake).x < 10 ∧
       (0 : ℕ) + 1 < 10 ∧ 10 ≤ 65536 ∧
       ((-1 : ℤ) = -1 ∨ (-1 : ℤ) = 0 ∨ (-1 : ℤ) = 1)) ∧
    (∃ f1 : Snowflake,
      update_snowflakes 10 10
          [({ x := 1, y := 0, speed_y := 1, speed_x := -1, char := Char.ofNat 42 } :
            Snowflake)] rngZero = some ([f1], rngZero) ∧
      f1.y = ({ x := 1, y := 0, speed_y := 1, speed_x := -1, char := Char.ofNat 42 } :
          Snowflake).y +
        ({ x := 1, y := 0, speed_y := 1, speed_x := -1, char := Char.ofNat 42 } :
          Snowflake).speed_y ∧
      (({ x := 1, y := 0, speed_y := 1, speed_x := -1, char := Char.ofNat 42 } :
          Snowflake).speed_x = 0 → f1.x = 1) ∧
      (({ x := 1, y := 0, speed_y := 1, speed_x := -1, char := Char.ofNat 42 } :
          Snowflake).speed_x = 1 → (1 + 1 = 10 → f1.x = 0) ∧ (1 + 1 < 10 → f1.x = 1 + 1)) ∧
      (({ x := 1, y := 0, speed_y := 1, speed_x := -1, char := Char.ofNat 42 } :
          Snowflake).speed_x = -1 →
        ((1 : ℕ) = 0 → f1.x = 0) ∧ ((1 : ℕ) = 1 → f1.x = 10 - 1) ∧ (2 ≤ (1 : ℕ) → f1.x = 1 - 1))) :=
  ⟨⟨by decide, by decide, by decide, by decide, by decide, by decide⟩,
   update_snowflakes_drift_wraparound 10 10 rngZero _ (by decide) (by decide) (by decide)
     (by decide) (by decide) (by decide)⟩

/-- Claim C2 counterexample: a cloud at `x = 9.99` on a 10-column screen is
within `[0, 10) × [0, 8)` before the update, but `update_clouds` moves it to
`x = 10.09 > 10` and wraps it to `x = -7` (minus its shape length), which is
outside `[0, 10)`: cloud wrapping does not keep entities within
`[0, terminal_width)`. -/
theorem update_clouds_wrap_leaves_range :
    (0 ≤ cexCloud.x ∧ cexCloud.x < 10 ∧ cexCloud.y < 8) ∧
    (update_clouds 10 [cexCloud]).map Cloud.x = [-7] ∧ ¬ (0 : ℚ) ≤ -7 := by
  have hlen : (("_.-^-._" : String).utf8ByteSize : ℚ) = 7 := by
    norm_num [show ("_.-^-._" : String).utf8ByteSize = 7 from by decide]
  refine ⟨⟨by norm_num [cexCloud], by norm_num [cexCloud], by norm_num [cexCloud]⟩, ?_,
    by norm_num⟩
  simp only [update_clouds, List.map_cons, List.map_nil, updateCloud, cexCloud]
  rw [if_pos (by norm_num)]
  simp [hlen]

lemma updateCloud_y (w : ℕ) (c : Cloud) : (updateCloud w c).y = c.y := by
  unfold updateCloud
  by_cases hc : (w : ℚ) < c.x + c.speed * (1 / 10)
  · rw [if_pos hc]
  · rw [if_neg hc]

/-- Claim C2 as amended: `update_raindrops` and `update_snowflakes` keep
every entity within `[0, terminal_width) × [0, terminal_height)` (whenever
the update completes), and `update_clouds` keeps every cloud's vertical
position unchanged, but cloud wrapping does not keep `x` in
`[0, terminal_width)`: a cloud crossing the right edge is wrapped to the
negative position `-(shape.len())` by design. -/
theorem weather_updates_preserve_bounds (w h : ℕ) (g : RNG)
    (ds : List RainDrop) (fs : List Snowflake) (cs : List Cloud)
    (hd : ∀ d ∈ ds, d.x < w ∧ d.y < h) (hf : ∀ f ∈ fs, f.x < w ∧ f.y < h) :
    (∀ p, update_raindrops w h ds g = some p → ∀ d1 ∈ p.1, d1.x < w ∧ d1.y < h) ∧
    (∀ p, update_snowflakes w h fs g = some p → ∀ f1 ∈ p.1, f1.x < w ∧ f1.y < h) ∧
    (update_clouds w cs).map Cloud.y = cs.map Cloud.y :=
  ⟨fun p => update_raindrops_bounds w h ds g p hd,
   fun p => update_snowflakes_bounds w h fs g p hf,
   by
    unfold update_clouds
    rw [List.map_map]
    exact List.map_congr_left fun c _ => updateCloud_y w c⟩

/-- Concrete instance of `weather_updates_preserve_bounds` at
`w = 4`, `h = 4`, one raindrop and one snowflake. -/
theorem weather_updates_preserve_bounds_witness :
    ((∀ d ∈ [({ x := 0, y := 3, speed := 1 } : RainDrop)], d.x < 4 ∧ d.y < 4) ∧
     (∀ f ∈ [({ x := 1, y := 0, speed_y := 1, speed_x := -1, char := Char.ofNat 42 } :
         Snowflake)], f.x < 4 ∧ f.y < 4)) ∧
    ((∀ p, update_raindrops 4 4 [({ x := 0, y := 3, speed := 1 } : RainDrop)] rngZero =
        some p → ∀ d1 ∈ p.1, d1.x < 4 ∧ d1.y < 4) ∧
     (∀ p, update_snowflakes 4 4
        [({ x := 1, y := 0, speed_y := 1, speed_x := -1, char := Char.ofNat 42 } :
          Snowflake)] rngZero =
        some p → ∀ f1 ∈ p.1, f1.x < 4 ∧ f1.y < 4) ∧
     (update_clouds 4 [cexCloud]).map Cloud.y = [cexCloud].map Cloud.y) :=
  ⟨⟨by decide, by decide⟩,
   weather_updates_preserve_bounds 4 4 rngZero _ _ [cexCloud] (by decide) (by decide)⟩

lemma updateRainDrop_reset (w h : ℕ) (d : RainDrop) (g : RNG)
    (hov : d.y + d.speed ≤ 65535) (htop : h ≤ d.y + d.speed) (hw : 0 < w) :
    updateRainDrop w h d g = some ({ d with x := g 0 % w, y := 0 }, rngTail g) := by
  unfold updateRainDrop
  rw [checkedAddU16_pos _ _ hov]
  simp only [Option.bind_eq_bind, Option.some_bind]
  rw [if_pos htop, randomRange_pos 0 w g hw]
  simp

/-- Claim C7 counterexample: the raindrop `(x = 0, y = 2, speed = 65535)`
on a `5 × 3` screen satisfies `y = height - 1` and `speed ≥ 1`, yet
`update_raindrops` does not produce a raindrop at `y = 0`: the `u16`
addition `y += speed` overflows (`2 + 65535 > 65535`), so the update traps
instead of resetting the drop (in a release build the wrapped sum `1` would
likewise leave `y = 1 ≠ 0` with `x` untouched). -/
theorem update_raindrops_overflow_cex :
    cexDrop.y = 3 - 1 ∧ 1 ≤ cexDrop.speed ∧ 1 ≤ 5 ∧
    (update_raindrops 5 3 [cexDrop] rngZero).isNone = true := by
  decide

/-- Claim C7 as amended: a raindrop with `y = height - 1` and `speed ≥ 1`
whose `u16` sum `y + speed` does not overflow is, after one
`update_raindrops`, at `y = 0` with a freshly sampled `x = g 0 % width`,
which lies in `[0, width)`. -/
theorem update_raindrops_bottom_row_reset (w h : ℕ) (g : RNG) (d : RainDrop)
    (hy : d.y = h - 1) (hs : 1 ≤ d.speed) (hw : 1 ≤ w) (hov : d.y + d.speed ≤ 65535) :
    update_raindrops w h [d] g = some ([{ d with x := g 0 % w, y := 0 }], rngTail g) ∧
    g 0 % w < w := by
  have htop : h ≤ d.y + d.speed := by omega
  refine ⟨?_, Nat.mod_lt _ (by omega)⟩
  rw [update_raindrops_cons, updateRainDrop_reset w h d g hov htop (by omega)]
  rfl

/-- Concrete instance of `update_raindrops_bottom_row_reset` at
`w = 5`, `h = 3`, the drop `(0, 2, 1)`. -/
theorem update_raindrops_bottom_row_reset_witness :
    ((2 : ℕ) = 3 - 1 ∧ (1 : ℕ) ≤ 1 ∧ (1 : ℕ) ≤ 5 ∧ (2 : ℕ) + 1 ≤ 65535) ∧
    (update_raindrops 5 3 [({ x := 0, y := 2, speed := 1 } : RainDrop)] rngZero =
        some ([{ ({ x := 0, y := 2, speed := 1 } : RainDrop) with
                  x := rngZero 0 % 5, y := 0 }], rngTail rngZero) ∧
      rngZero 0 % 5 < 5) :=
  ⟨⟨by decide, by decide, by decide, by decide⟩,
   update_raindrops_bottom_row_reset 5 3 rngZero _ (by decide) (by decide) (by decide)
     (by decide)⟩

/-- Claim C5: `create_stars_with_count` returns exactly `count` stars, each
with `x ∈ [0, width)`, `y ∈ [0, height / 2)` and a glyph from
`STAR_CHARS`, for any `width ≥ 1` and `height ≥ 2`. -/
theorem create_stars_with_count_spec (w h : ℕ) (g : RNG) (n : ℕ)
    (hw : 1 ≤ w) (hh : 2 ≤ h) :
    ∃ p, create_stars_with_count w h g n = some p ∧ p.1.length = n ∧
      ∀ s ∈ p.1, s.x < w ∧ s.y < h / 2 ∧ s.char ∈ STAR_CHARS := by
  induction n generalizing g with
  | zero => exact ⟨([], g), rfl, rfl, by simp⟩
  | succ n ih =>
    obtain ⟨p, hp, hlen, hprops⟩ := ih (rngTail (rngTail (rngTail g)))
    refine ⟨(({ x := 0 + g 0 % w,
                y := 0 + rngTail g 0 % (h / 2),
                char := (pickUniform STAR_CHARS (by decide) (rngTail (rngTail g))).1 } : Star)
        :: p.1, p.2), ?_, by simpa using hlen, ?_⟩
    · rw [create_stars_with_count, randomRange_pos 0 w g (by omega)]
      simp only [Option.bind_eq_bind, Option.some_bind]
      rw [randomRange_pos 0 (h / 2) (rngTail g) (by omega)]
      simp only [Option.some_bind, pickUniform]
      rw [hp]
      simp only [Option.some_bind, Nat.sub_zero]
    · intro s hs
      rcases List.mem_cons.mp hs with h1 | h1
      · rw [h1]
        refine ⟨?_, ?_, pickUniform_mem STAR_CHARS (by decide) (rngTail (rngTail g))⟩
        · have := Nat.mod_lt (g 0) (y := w) (by omega)
          simpa using this
        · have := Nat.mod_lt (rngTail g 0) (y := h / 2) (by omega)
          simpa using this
      · exact hprops s h1

/-- Concrete instance of `create_stars_with_count_spec`: 10 stars on an
`80 × 24` terminal (the spec's end-to-end case). -/
theorem create_stars_with_count_spec_witness :
    ((1 : ℕ) ≤ 80 ∧ (2 : ℕ) ≤ 24) ∧
    (∃ p, create_stars_with_count 80 24 rngZero 10 = some p ∧ p.1.length = 10 ∧
      ∀ s ∈ p.1, s.x < 80 ∧ s.y < 24 / 2 ∧ s.char ∈ STAR_CHARS) :=
  ⟨⟨by decide, by decide⟩,
   create_stars_with_count_spec 80 24 rngZero 10 (by decide) (by decide)⟩

/-- Claim C6: for `height ≥ 4`, `spawn_vehicle` yields a vehicle whose
`(glyph, color, speed)` triple is one of the nine `VEHICLE_STYLES`, whose
row is one of the two fixed lanes `height - 3` and `height - 4`, and which
starts at the left edge `x = 0` when its speed is positive and at the right
edge `x = width` when its speed is negative. -/
theorem spawn_vehicle_spec (w h : ℕ) (g : RNG) (hh : 4 ≤ h) :
    ∃ p, spawn_vehicle w h g = some p ∧
      (p.1.style, p.1.color, p.1.speed) ∈ VEHICLE_STYLES ∧
      (p.1.y = h - 3 ∨ p.1.y = h - 4) ∧
      (0 < p.1.speed → p.1.x = 0) ∧ (p.1.speed < 0 → p.1.x = (w : ℚ)) := by
  have hsub3 : checkedSubU16 h 3 = some (h - 3) := by
    unfold checkedSubU16; rw [if_pos (by omega)]
  have hsub1 : checkedSubU16 (h - 3) 1 = some (h - 3 - 1) := by
    unfold checkedSubU16; rw [if_pos (by omega)]
  unfold spawn_vehicle
  rw [hsub3]
  simp only [Option.bind_eq_bind, Option.some_bind, pickUniform, randomBool]
  by_cases hb : (rngTail g 0 % 2 == 0) = true
  · rw [if_pos hb]
    refine ⟨_, rfl, List.get_mem _ _ _, Or.inl rfl, fun hs => ?_, fun hs => ?_⟩
    · exact if_pos hs
    · exact if_neg (not_lt.mpr (le_of_lt hs))
  · rw [if_neg hb, hsub1]
    refine ⟨_, rfl, List.get_mem _ _ _, Or.inr ?_, fun hs => ?_, fun hs => ?_⟩
    · show h - 3 - 1 = h - 4
      omega
    · exact if_pos hs
    · exact if_neg (not_lt.mpr (le_of_lt hs))

/-- Concrete instance of `spawn_vehicle_spec` on an `80 × 24` terminal. -/
theorem spawn_vehicle_spec_witness :
    (4 : ℕ) ≤ 24 ∧
    (∃ p, spawn_vehicle 80 24 rngZero = some p ∧
      (p.1.style, p.1.color, p.1.speed) ∈ VEHICLE_STYLES ∧
      (p.1.y = 24 - 3 ∨ p.1.y = 24 - 4) ∧
      (0 < p.1.speed → p.1.x = 0) ∧ (p.1.speed < 0 → p.1.x = (80 : ℚ))) :=
  ⟨by decide, spawn_vehicle_spec 80 24 rngZero (by decide)⟩

lemma checkedSubU16_pos (a b : ℕ) (hab : b ≤ a) : checkedSubU16 a b = some (a - b) := by
  unfold checkedSubU16; rw [if_pos hab]

lemma checkedSubU16_some (a b c : ℕ) (hs : checkedSubU16 a b = some c) :
    b ≤ a ∧ c = a - b := by
  unfold checkedSubU16 at hs
  by_cases hab : b ≤ a
  · rw [if_pos hab] at hs
    exact ⟨hab, (Option.some.inj hs).symm⟩
  · rw [if_neg hab] at hs
    simp at hs

lemma randomRange_some_bounds (lo hi : ℕ) (g : RNG) (v : ℕ) (g1 : RNG)
    (hr : randomRange lo hi g = some (v, g1)) : lo ≤ v ∧ v < hi := by
  unfold randomRange at hr
  by_cases hlh : lo < hi
  · rw [if_pos hlh] at hr
    have hv : lo + g 0 % (hi - lo) = v := congrArg Prod.fst (Option.some.inj hr)
    have hm := Nat.mod_lt (g 0) (y := hi - lo) (by omega)
    omega
  · rw [if_neg hlh] at hr
    simp at hr

lemma createBuildingsFrom_sound (w h : ℕ) (x : ℕ) (g : RNG) :
    ∀ p, createBuildingsFrom w h x g = some p →
      ∀ b ∈ p.1, 5 ≤ b.width ∧ b.width < 15 ∧ 5 ≤ b.height ∧ b.height < h - 5 ∧
        b.x < w ∧ b.color ∈ BUILDING_COLORS := by
  induction x, g using createBuildingsFrom.induct w h with
  | case1 x g hx hsub =>
    intro p hp
    unfold createBuildingsFrom at hp
    rw [dif_pos hx] at hp
    simp only [hsub] at hp
    exact Option.noConfusion hp
  | case2 x g hx g1 hb hsub hrange =>
    intro p hp
    have eg1 : g1 = rngTail g := rfl
    rw [eg1] at hrange
    unfold createBuildingsFrom at hp
    rw [dif_pos hx] at hp
    simp only [hsub, hrange] at hp
    exact Option.noConfusion hp
  | case3 x g hx width g1 hb hsub height g2 hrange color g3 hcolor ws g4 hwind ab g5
      hbool ac g6 hant gap g7 hguard hrec ih =>
    intro p hp
    have eg1 : g1 = rngTail g := rfl
    have ew : width = 5 + g 0 % 10 := rfl
    have egap : gap = 1 + g6 0 % 4 := rfl
    have eg7 : g7 = rngTail g6 := rfl
    rw [eg1] at hrange
    rw [ew] at hwind
    rw [ew, egap, eg7] at hrec
    rw [ew, egap] at hguard
    have hant2 : (if ab = true then pickUniform ANTENNA_CHARS (by decide) g5
        else (' ', g5)) = (ac, g6) := hant
    unfold createBuildingsFrom at hp
    rw [dif_pos hx] at hp
    simp only [hsub, hrange, hcolor, hwind, hbool] at hp
    rw [hant2] at hp
    simp only [if_pos hguard, hrec] at hp
    exact Option.noConfusion hp
  | case4 x g hx width g1 hb hsub height g2 hrange color g3 hcolor ws g4 hwind ab g5
      hbool ac g6 hant gap g7 hguard rest g8 hrec ih =>
    intro p hp
    have eg1 : g1 = rngTail g := rfl
    have ew : width = 5 + g 0 % 10 := rfl
    have egap : gap = 1 + g6 0 % 4 := rfl
    have eg7 : g7 = rngTail g6 := rfl
    rw [eg1] at hrange
    rw [ew] at hwind
    rw [ew, egap, eg7] at hrec
    rw [ew, egap] at hguard
    have hant2 : (if ab = true then pickUniform ANTENNA_CHARS (by decide) g5
        else (' ', g5)) = (ac, g6) := hant
    unfold createBuildingsFrom at hp
    rw [dif_pos hx] at hp
    simp only [hsub, hrange, hcolor, hwind, hbool] at hp
    rw [hant2] at hp
    simp only [if_pos hguard, hrec, Option.some_inj] at hp
    rw [← hp]
    intro b hb1
    rcases List.mem_cons.mp hb1 with h1 | h1
    · obtain ⟨h5h, hbe⟩ := checkedSubU16_some h 5 hb hsub
      obtain ⟨hge, hlt2⟩ := randomRange_some_bounds 5 hb (rngTail g) height g2 hrange
      have hmod10 : g 0 % 10 < 10 := Nat.mod_lt _ (by omega)
      have hcmem : color ∈ BUILDING_COLORS := by
        have hm := pickUniform_mem BUILDING_COLORS
          createBuildingsFrom._unary.proof_2 g2
        rw [hcolor] at hm
        exact hm
      rw [h1]
      dsimp only
      exact ⟨by omega, by omega, by omega, by omega, hx, hcmem⟩
    · exact ih (rest, g8) hrec b h1
  | case5 x g hx width g1 hb hsub height g2 hrange color g3 hcolor ws g4 hwind ab g5
      hbool ac g6 hant gap hnguard =>
    intro p hp
    have eg1 : g1 = rngTail g := rfl
    have ew : width = 5 + g 0 % 10 := rfl
    have egap : gap = 1 + g6 0 % 4 := rfl
    rw [eg1] at hrange
    rw [ew] at hwind
    rw [ew, egap] at hnguard
    have hant2 : (if ab = true then pickUniform ANTENNA_CHARS (by decide) g5
        else (' ', g5)) = (ac, g6) := hant
    unfold createBuildingsFrom at hp
    rw [dif_pos hx] at hp
    simp only [hsub, hrange, hcolor, hwind, hbool] at hp
    rw [hant2] at hp
    simp only [if_neg hnguard] at hp
    exact Option.noConfusion hp
  | case6 x g hx =>
    intro p hp
    unfold createBuildingsFrom at hp
    rw [dif_neg hx] at hp
    rw [← Option.some.inj hp]
    simp

lemma createBuildingsFrom_total (w h : ℕ) (hh : 11 ≤ h) (hwb : w ≤ 65518)
    (x : ℕ) (g : RNG) : ∃ p, createBuildingsFrom w h x g = some p := by
  induction x, g using createBuildingsFrom.induct w h with
  | case1 x g hx hsub =>
    rw [checkedSubU16_pos h 5 (by omega)] at hsub
    simp at hsub
  | case2 x g hx g1 hb hsub hrange =>
    rw [checkedSubU16_pos h 5 (by omega)] at hsub
    injection hsub with hsub
    rw [← hsub, randomRange_pos 5 (h - 5) _ (by omega)] at hrange
    simp at hrange
  | case3 x g hx width g1 hb hsub height g2 hrange color g3 hcolor ws g4 hwind ab g5
      hbool ac g6 hant gap g7 hguard hrec ih =>
    obtain ⟨p, hp⟩ := ih
    rw [hp] at hrec
    simp at hrec
  | case4 x g hx width g1 hb hsub height g2 hrange color g3 hcolor ws g4 hwind ab g5
      hbool ac g6 hant gap g7 hguard rest g8 hrec ih =>
    have eg1 : g1 = rngTail g := rfl
    have ew : width = 5 + g 0 % 10 := rfl
    have egap : gap = 1 + g6 0 % 4 := rfl
    have eg7 : g7 = rngTail g6 := rfl
    rw [eg1] at hrange
    rw [ew] at hwind
    rw [ew, egap, eg7] at hrec
    rw [ew, egap] at hguard
    have hant2 : (if ab = true then pickUniform ANTENNA_CHARS (by decide) g5
        else (' ', g5)) = (ac, g6) := hant
    refine ⟨(({ x := x, width := 5 + g 0 % 10, height := height, color := color,
                windows := ws, has_antenna := ab, antenna_char := ac } : Building)
        :: rest, g8), ?_⟩
    unfold createBuildingsFrom
    rw [dif_pos hx]
    simp only [hsub, hrange, hcolor, hwind, hbool]
    rw [hant2]
    simp only [if_pos hguard, hrec]
  | case5 x g hx width g1 hb hsub height g2 hrange color g3 hcolor ws g4 hwind ab g5
      hbool ac g6 hant gap hnguard =>
    exfalso
    have ew : width = 5 + g 0 % 10 := rfl
    have egap : gap = 1 + g6 0 % 4 := rfl
    rw [ew, egap] at hnguard
    have hmod10 : g 0 % 10 < 10 := Nat.mod_lt _ (by omega)
    have hmod4 : g6 0 % 4 < 4 := Nat.mod_lt _ (by omega)
    omega
  | case6 x g hx =>
    exact ⟨([], g), by unfold createBuildingsFrom; rw [dif_neg hx]⟩

/-- Claim C4: every building returned by `create_buildings` (for `h ≥ 11`,
so the height sampling succeeds) satisfies `5 ≤ width < 15`,
`5 ≤ height < term_height - 5`, `x < term_width`, and a color from the
four fixed `BUILDING_COLORS` — for every terminal width; and whenever the
checked `u16` accumulator `x += width + gap` cannot overflow
(`term_width ≤ 65518`, every realistic terminal), generation indeed
returns such a list. -/
theorem create_buildings_spec (w h : ℕ) (g : RNG) (hh : 11 ≤ h) :
    (∀ p, create_buildings w h g = some p →
      ∀ b ∈ p.1, 5 ≤ b.width ∧ b.width < 15 ∧ 5 ≤ b.height ∧ b.height < h - 5 ∧
        b.x < w ∧ b.color ∈ BUILDING_COLORS) ∧
    (w ≤ 65518 → ∃ p, create_buildings w h g = some p ∧
      ∀ b ∈ p.1, 5 ≤ b.width ∧ b.width < 15 ∧ 5 ≤ b.height ∧ b.height < h - 5 ∧
        b.x < w ∧ b.color ∈ BUILDING_COLORS) := by
  refine ⟨fun p hp => createBuildingsFrom_sound w h 0 g p hp, fun hwb => ?_⟩
  obtain ⟨p, hp⟩ := createBuildingsFrom_total w h hh hwb 0 g
  exact ⟨p, hp, createBuildingsFrom_sound w h 0 g p hp⟩

/-- Concrete instance of `create_buildings_spec` on a `20 × 12` terminal. -/
theorem create_buildings_spec_witness :
    (11 : ℕ) ≤ 12 ∧
    ((∀ p, create_buildings 20 12 rngZero = some p →
      ∀ b ∈ p.1, 5 ≤ b.width ∧ b.width < 15 ∧ 5 ≤ b.height ∧ b.height < 12 - 5 ∧
        b.x < 20 ∧ b.color ∈ BUILDING_COLORS) ∧
    ((20 : ℕ) ≤ 65518 → ∃ p, create_buildings 20 12 rngZero = some p ∧
      ∀ b ∈ p.1, 5 ≤ b.width ∧ b.width < 15 ∧ 5 ≤ b.height ∧ b.height < 12 - 5 ∧
        b.x < 20 ∧ b.color ∈ BUILDING_COLORS)) :=
  ⟨by decide, create_buildings_spec 20 12 rngZero (by decide)⟩

lemma createBuildingsFrom_none_of_small (w h : ℕ) (g : RNG) (hw : 0 < w)
    (hsmall : h ≤ 10) : create_buildings w h g = none := by
  unfold create_buildings createBuildingsFrom
  rw [dif_pos hw]
  by_cases h5 : h < 5
  · rw [show checkedSubU16 h 5 = none from by unfold checkedSubU16; rw [if_neg (by omega)]]
  · simp only [checkedSubU16_pos h 5 (by omega)]
    rw [show randomRange 5 (h - 5) (rngTail g) = none from by
      unfold randomRange; rw [if_neg (by omega)]]

lemma createBuildingsFrom_overflow (n : ℕ) :
    ∀ x, x % 6 = 0 → x < 65535 → 65535 - x ≤ n →
      createBuildingsFrom 65535 24 x rngZero = none := by
  induction n with
  | zero =>
    intro x h6 hlt hn
    exact absurd hn (by omega)
  | succ n ih =>
    intro x h6 hlt hn
    unfold createBuildingsFrom
    rw [dif_pos hlt]
    show (if x + 6 ≤ 65535 then
            match createBuildingsFrom 65535 24 (x + 6) rngZero with
            | none => none
            | some (rest, g8) =>
              some (({ x := x, width := 5, height := 5, color := Color.rgb 60 60 60,
                       windows := [[{ is_on := true }, { is_on := true }], [],
                         [{ is_on := true }, { is_on := true }]],
                       has_antenna := true, antenna_char := Char.ofNat 124 } : Building)
                :: rest, g8)
          else none) = none
    by_cases hover : x + 6 ≤ 65535
    · rw [if_pos hover, ih (x + 6) (by omega) (by omega) (by omega)]
    · rw [if_neg hover]

/-- Claim C10 counterexample: `create_buildings` is not total for every
terminal size with `h ≥ 11`.  On a `u16`-legal terminal of width `65535`
and height `24`, the all-zeros stream tiles buildings at
`x = 0, 6, 12, …, 65532` (`width = 5`, `gap = 1` each step), and at
`x = 65532 < 65535` the `u16` accumulator step `x += width + gap` would
reach `65538 > 65535`: a checked-arithmetic error (debug-build panic), so
generation traps instead of returning a building list. -/
theorem create_buildings_unsafe_at_large_width :
    (11 : ℕ) ≤ 24 ∧ (1 : ℕ) ≤ 65535 ∧ create_buildings 65535 24 rngZero = none :=
  ⟨by decide, by decide, by
    unfold create_buildings
    exact createBuildingsFrom_overflow 65535 0 (by decide) (by decide) (by decide)⟩

/-- Claim C10 as amended: the height-driven error branches behave exactly
as claimed — for `h < 5` the `u16` subtraction `h - 5` underflows and for
`5 ≤ h ≤ 10` the sample range `5..(h-5)` is empty (a panic) — and on any
terminal whose width keeps the checked `u16` accumulator `x += width + gap`
from overflowing (`1 ≤ w ≤ 65518`; overflow needs `w ≥ 65519`),
`create_buildings` succeeds exactly when `h ≥ 11`. -/
theorem create_buildings_safe_iff (w h : ℕ) (g : RNG) (hw : 1 ≤ w)
    (hwb : w ≤ 65518) : (create_buildings w h g).isSome ↔ 11 ≤ h := by
  constructor
  · intro hs
    by_contra hlt
    rw [createBuildingsFrom_none_of_small w h g (by omega) (by omega)] at hs
    simp at hs
  · intro hh
    obtain ⟨p, hp⟩ := createBuildingsFrom_total w h hh hwb 0 g
    unfold create_buildings
    rw [hp]
    rfl

/-- Concrete instance of `create_buildings_safe_iff` on an `80`-column
terminal. -/
theorem create_buildings_safe_iff_witness :
    ((1 : ℕ) ≤ 80 ∧ (80 : ℕ) ≤ 65518) ∧
    ((create_buildings 80 24 rngZero).isSome ↔ (11 : ℕ) ≤ 24) :=
  ⟨⟨by decide, by decide⟩, create_buildings_safe_iff 80 24 rngZero (by decide) (by decide)⟩

end CityScreensaver
